import Mathlib

set_option maxHeartbeats 1000000

namespace DaemonizeMe

/-- Error taxonomy of the crate: the DaemonError enum of lib.rs, extended with
the constructors referenced by ffi.rs (SetProcName, InvalidProcName,
UnsupportedOnOS). -/
inductive DaemonError where
  | Fork
  | ChDir
  | OpenDevNull
  | CloseFp
  | InvalidUser
  | InvalidGroup
  | InvalidUserGroupPair
  | InvalidCstr
  | InitGroups
  | SetUid
  | SetGid
  | ChownPid
  | OpenPid
  | WritePid
  | RedirectStream
  | InvalidUmaskBits
  | SetSid
  | GetGrRecord
  | GetPasswdRecord
  | SetProcName
  | InvalidProcName
  | UnsupportedOnOS
  deriving DecidableEq, Repr

/-- Error type of the work-in-progress process.rs module, whose functions
return the raw last errno instead of a DaemonError. -/
inductive PError where
  | errnoLast
  deriving DecidableEq, Repr

/-- A user as in user.rs of the current generation crate: src/user.rs sibling
module group.rs gives Group the shape id plus name, and daemon.rs accesses
user.id and resolves the name by uid, so User carries id and name. -/
structure User where
  id : Nat
  name : String
  deriving DecidableEq, Repr

/-- A group as in src/group.rs: numeric gid plus resolved name. -/
structure Group where
  id : Nat
  name : String
  deriving DecidableEq, Repr

/-- UserInfo from src/user.rs: a pair of raw numeric ids, Default gives 0, 0. -/
structure UserInfo where
  user : Nat
  group : Nat
  deriving DecidableEq, Repr

/-- UserInfo::new, via Default: both ids zero. -/
def UserInfo.new : UserInfo := { user := 0, group := 0 }

/-- UserInfo::is_some_none from src/user.rs line 14. -/
def UserInfo.is_some_none (u : UserInfo) : Bool :=
  u.user == 0 || u.group == 0

/-- UserInfo::is_some from src/user.rs line 17. -/
def UserInfo.is_some (u : UserInfo) : Bool :=
  u.user != 0 && u.group != 0

/-- A standard stream directive, src/stdio.rs StdioImp: either the null device
or a caller supplied open file, identified here by its raw descriptor. -/
inductive Stdio where
  | devnull
  | redirectToFile (fd : Nat)
  deriving DecidableEq, Repr

/-- Observable events: every syscall or hook invocation the engine performs, in
order. The trace of a run is the list of these events. -/
inductive Event where
  | beforeForkHook (pid : Nat)
  | fork
  | afterForkParentHook (ppid cpid : Nat)
  | exitProcess (code : Nat)
  | openDevNull
  | closeFd (fd : Nat)
  | dup2 (src dst : Nat)
  | afterForkChildHook (ppid cpid : Nat)
  | setProcName (pname : String)
  | umaskSet (mask : Nat)
  | setsid
  | chdirTo (path : String)
  | createPidFile (path : String)
  | writePidContents (path : String) (contents : String)
  | chownFile (path : String) (uid gid : Nat)
  | setgid (gid : Nat)
  | initgroups (uname : String) (gid : Nat)
  | setuid (uid : Nat)
  | afterInitHook
  deriving DecidableEq, Repr

/-- Which branch the fork returns in, or failure. -/
inductive ForkOutcome where
  | failed
  | parent (childPid : Nat)
  | child
  deriving DecidableEq, Repr

/-- The oracle for the OS: pids, success or failure of each fallible syscall,
and the account database lookup used during privilege drop. -/
structure Env where
  parentPid : Nat
  forkResult : ForkOutcome
  childPid : Nat
  openDevNullOk : Bool
  devnullFd : Nat
  closeOk : Nat → Bool
  dup2Ok : Nat → Nat → Bool
  setProcNameOk : Bool
  setsidOk : Bool
  chdirOk : Bool
  createPidOk : Bool
  writePidOk : Bool
  chownOk : Bool
  lookupNameByUid : Nat → Option String
  setgidOk : Bool
  initgroupsOk : Bool
  setuidOk : Bool

/-- Terminal outcome of Daemon::start: a returned Result, a process exit in
the parent branch, or control permanently handed to the diverging parent
hook. -/
inductive Outcome where
  | completed (r : Except DaemonError Unit)
  | exited (code : Nat)
  | parentHookDiverged

/-- The source descriptor a directive duplicates onto a standard slot: the
shared null descriptor, or the raw descriptor of the caller supplied file. -/
def Stdio.srcFd (env : Env) : Stdio → Nat
  | .devnull => env.devnullFd
  | .redirectToFile fd => fd

/-- The closure proc_stream of src/stdio.rs lines 56 to 74: close the standard
descriptor fd, then dup2 the null or file descriptor onto fd. -/
def procStream (env : Env) (fd : Nat) (stdio : Stdio) :
    List Event × Option DaemonError :=
  if env.closeOk fd = false then
    ([Event.closeFd fd], some DaemonError.CloseFp)
  else
    match stdio with
    | Stdio.devnull =>
        ([Event.closeFd fd, Event.dup2 env.devnullFd fd],
          if env.dup2Ok env.devnullFd fd then none
          else some DaemonError.RedirectStream)
    | Stdio.redirectToFile rawFd =>
        ([Event.closeFd fd, Event.dup2 rawFd fd],
          if env.dup2Ok rawFd fd then none
          else some DaemonError.RedirectStream)

/-- redirect_stdio from src/stdio.rs lines 47 to 81: open /dev/null once, then
process stdin (fd 0), stdout (fd 1), stderr (fd 2) in that order, each with
the question mark operator so the first error aborts the call. -/
def redirect_stdio (env : Env) (sin sout serr : Stdio) :
    List Event × Option DaemonError :=
  if env.openDevNullOk = false then
    ([Event.openDevNull], some DaemonError.OpenDevNull)
  else
    match procStream env 0 sin with
    | (t0, some e) => (Event.openDevNull :: t0, some e)
    | (t0, none) =>
        match procStream env 1 sout with
        | (t1, some e) => (Event.openDevNull :: (t0 ++ t1), some e)
        | (t1, none) =>
            match procStream env 2 serr with
            | (t2, r2) => (Event.openDevNull :: (t0 ++ t1 ++ t2), r2)

/-- close_and_dub from src/process.rs lines 82 to 92: close fd_old, then call
dup2 with fd_old as the source and fd_new as the destination, reporting the
raw last errno on failure. -/
def close_and_dub (env : Env) (fd_old fd_new : Nat) :
    List Event × Option PError :=
  if env.closeOk fd_old = false then
    ([Event.closeFd fd_old], some PError.errnoLast)
  else
    ([Event.closeFd fd_old, Event.dup2 fd_old fd_new],
      if env.dup2Ok fd_old fd_new then none else some PError.errnoLast)

/-- redirect_stdio from src/process.rs lines 94 to 114: open /dev/null, then
for each standard descriptor call close_and_dub with the standard descriptor
as fd_old and the null or file descriptor as fd_new. -/
def process_redirect_stdio (env : Env) (sin sout serr : Stdio) :
    List Event × Option PError :=
  if env.openDevNullOk = false then
    ([Event.openDevNull], some PError.errnoLast)
  else
    match close_and_dub env 0 (sin.srcFd env) with
    | (t0, some e) => (Event.openDevNull :: t0, some e)
    | (t0, none) =>
        match close_and_dub env 1 (sout.srcFd env) with
        | (t1, some e) => (Event.openDevNull :: (t0 ++ t1), some e)
        | (t1, none) =>
            match close_and_dub env 2 (serr.srcFd env) with
            | (t2, r2) => (Event.openDevNull :: (t0 ++ t1 ++ t2), r2)

/-- Modelled from the spec: Mode::from_bits of the external nix crate, as used
at src/daemon.rs line 228; per the spec the valid umask range is 0..=0o777, so
from_bits is some exactly on values whose bits fit within 0o777. -/
def Mode.from_bits (bits : Nat) : Option Nat :=
  if bits ≤ 0o777 then some bits else none

/-- Whether a Rust String contains an interior NUL byte, which makes
CString::new fail. -/
def hasNul (s : String) : Bool := s.data.any (fun c => c == Char.ofNat 0)

/-- The Daemon configuration record of src/daemon.rs lines 47 to 64. Hook
fields keep only whether the hook is present; hook bodies are external
callbacks. -/
structure Daemon where
  chdir : String
  pid_file : Option String
  chown_pid_file : Bool
  user : Option User
  group : Option Group
  umask : Nat
  stdin : Stdio
  stdout : Stdio
  stderr : Stdio
  name : Option String
  before_fork_hook : Bool
  after_fork_parent_hook : Bool
  after_fork_child_hook : Bool
  after_init_hook : Bool

/-- Daemon::new from src/daemon.rs lines 67 to 85. -/
def Daemon.new : Daemon :=
  { chdir := "/"
    pid_file := none
    chown_pid_file := false
    user := none
    group := none
    umask := 0o027
    stdin := Stdio.devnull
    stdout := Stdio.devnull
    stderr := Stdio.devnull
    name := none
    before_fork_hook := false
    after_fork_parent_hook := false
    after_fork_child_hook := false
    after_init_hook := false }

/-- Sequencing of fallible traced steps: run each step in order, stopping at
the first error, accumulating the trace of every step that was started. This
mirrors the early return control flow of the Rust source. -/
def runSteps : List (List Event × Option DaemonError) →
    List Event × Option DaemonError
  | [] => ([], none)
  | r :: rest =>
      match r.2 with
      | some e => (r.1, some e)
      | none => ((r.1 ++ (runSteps rest).1), (runSteps rest).2)

/-- The set_proc_name step of src/daemon.rs lines 221 to 226, with
set_proc_name itself from src/ffi.rs lines 160 to 172 (linux variant):
CString conversion fails on interior NUL with InvalidProcName, a failing
prctl gives SetProcName. -/
def nameStep (d : Daemon) (env : Env) : List Event × Option DaemonError :=
  match d.name with
  | none => ([], none)
  | some n =>
      if hasNul n then ([], some DaemonError.InvalidProcName)
      else
        ([Event.setProcName n],
          if env.setProcNameOk then none else some DaemonError.SetProcName)

/-- The umask step of src/daemon.rs lines 227 to 232: Mode::from_bits on the
configured value, InvalidUmaskBits when it is none, otherwise umask is
applied. -/
def umaskStep (d : Daemon) : List Event × Option DaemonError :=
  match Mode.from_bits d.umask with
  | none => ([], some DaemonError.InvalidUmaskBits)
  | some m => ([Event.umaskSet m], none)

/-- The pid file step of src/daemon.rs lines 240 to 253: create or truncate
the file, then write the decimal representation of the current pid; either
failure is WritePid. -/
def pidStep (d : Daemon) (env : Env) : List Event × Option DaemonError :=
  match d.pid_file with
  | none => ([], none)
  | some p =>
      if env.createPidOk then
        ([Event.createPidFile p,
          Event.writePidContents p (Nat.repr env.childPid)],
          if env.writePidOk then none else some DaemonError.WritePid)
      else
        ([Event.createPidFile p], some DaemonError.WritePid)

/-- The conditional chown of the pid file, src/daemon.rs lines 271 to 276. -/
def chownStep (d : Daemon) (env : Env) (u : User) (g : Group) :
    List Event × Option DaemonError :=
  match d.pid_file with
  | some p =>
      if d.chown_pid_file then
        ([Event.chownFile p u.id g.id],
          if env.chownOk then none else some DaemonError.ChownPid)
      else ([], none)
  | none => ([], none)

/-- The setgid call, src/daemon.rs lines 278 to 281. -/
def setgidStep (env : Env) (g : Group) : List Event × Option DaemonError :=
  ([Event.setgid g.id],
    if env.setgidOk then none else some DaemonError.SetGid)

/-- The initgroups call of src/daemon.rs lines 282 to 292: CString conversion
of the resolved user name fails with SetGid (as in the source), then
initgroups with that name and the target gid. -/
def initgroupsStep (env : Env) (uname : String) (g : Group) :
    List Event × Option DaemonError :=
  if hasNul uname then ([], some DaemonError.SetGid)
  else
    ([Event.initgroups uname g.id],
      if env.initgroupsOk then none else some DaemonError.InitGroups)

/-- The setuid call, src/daemon.rs lines 293 to 296. -/
def setuidStep (env : Env) (u : User) : List Event × Option DaemonError :=
  ([Event.setuid u.id],
    if env.setuidOk then none else some DaemonError.SetUid)

/-- The privilege drop block of src/daemon.rs lines 255 to 297 (non macos
variant): resolve the user name by uid, optionally chown the pid file, then
setgid, initgroups, and setuid last. -/
def privStep (d : Daemon) (env : Env) : List Event × Option DaemonError :=
  match d.user, d.group with
  | some u, some g =>
      match env.lookupNameByUid u.id with
      | none => ([], some DaemonError.InvalidUser)
      | some uname =>
          runSteps
            [chownStep d env u g, setgidStep env g,
              initgroupsStep env uname g, setuidStep env u]
  | _, _ => ([], none)

/-- The setsid call, src/daemon.rs lines 234 to 236. -/
def setsidStep (env : Env) : List Event × Option DaemonError :=
  ([Event.setsid], if env.setsidOk then none else some DaemonError.SetSid)

/-- A chdir call to the configured working directory, src/daemon.rs lines
237 to 239 and again lines 298 to 303. -/
def chdirStep (d : Daemon) (env : Env) : List Event × Option DaemonError :=
  ([Event.chdirTo d.chdir],
    if env.chdirOk then none else some DaemonError.ChDir)

/-- The post init hook, src/daemon.rs lines 306 to 311: invoked when present,
never fails. -/
def initHookStep (d : Daemon) : List Event × Option DaemonError :=
  ((if d.after_init_hook then [Event.afterInitHook] else []), none)

/-- The post validation tail of src/daemon.rs lines 221 to 311: process name,
umask, setsid, first chdir, pid file, privilege drop, second chdir, post init
hook. -/
def childSequence (d : Daemon) (env : Env) : List Event × Option DaemonError :=
  runSteps
    [nameStep d env, umaskStep d, setsidStep env, chdirStep d env,
      pidStep d env, privStep d env, chdirStep d env, initHookStep d]

/-- Trace of the optional before fork hook, src/daemon.rs lines 183 to 185. -/
def preTrace (d : Daemon) (env : Env) : List Event :=
  if d.before_fork_hook then [Event.beforeForkHook env.parentPid] else []

/-- Trace of the optional after fork child hook, src/daemon.rs lines
204 to 206. -/
def childHookTrace (d : Daemon) (env : Env) : List Event :=
  if d.after_fork_child_hook then
    [Event.afterForkChildHook env.parentPid env.childPid]
  else []

/-- Daemon::start from src/daemon.rs lines 172 to 312: before fork hook, fork
with parent exit or parent hook, child stream redirection and child hook,
then the identity pair validation of lines 213 to 219, then the child
sequence. -/
def Daemon.start (d : Daemon) (env : Env) : List Event × Outcome :=
  match env.forkResult with
  | ForkOutcome.failed =>
      (preTrace d env ++ [Event.fork],
        Outcome.completed (Except.error DaemonError.Fork))
  | ForkOutcome.parent cpid =>
      if d.after_fork_parent_hook then
        (preTrace d env ++
          [Event.fork, Event.afterForkParentHook env.parentPid cpid],
          Outcome.parentHookDiverged)
      else
        (preTrace d env ++ [Event.fork, Event.exitProcess 0],
          Outcome.exited 0)
  | ForkOutcome.child =>
      match redirect_stdio env d.stdin d.stdout d.stderr with
      | (rt, some e) =>
          (preTrace d env ++ Event.fork :: rt,
            Outcome.completed (Except.error e))
      | (rt, none) =>
          if d.chown_pid_file && (d.user.isNone || d.group.isNone) then
            (preTrace d env ++ Event.fork :: rt ++ childHookTrace d env,
              Outcome.completed (Except.error DaemonError.InvalidUserGroupPair))
          else if (d.user.isSome || d.group.isSome) &&
              (d.user.isNone || d.group.isNone) then
            (preTrace d env ++ Event.fork :: rt ++ childHookTrace d env,
              Outcome.completed (Except.error DaemonError.InvalidUserGroupPair))
          else
            match childSequence d env with
            | (ct, some e) =>
                (preTrace d env ++ Event.fork :: rt ++
                  childHookTrace d env ++ ct,
                  Outcome.completed (Except.error e))
            | (ct, none) =>
                (preTrace d env ++ Event.fork :: rt ++
                  childHookTrace d env ++ ct,
                  Outcome.completed (Except.ok ()))

/-- Number of fork invocations recorded in a trace. -/
def forkCount (t : List Event) : Nat := t.count Event.fork

/-- Recogniser for working directory change events. -/
def isChdirEvent : Event → Bool
  | Event.chdirTo _ => true
  | _ => false

/-- Number of working directory changes recorded in a trace. -/
def chdirCount (t : List Event) : Nat := t.countP isChdirEvent

/-- Recogniser for the privilege drop syscalls: chown of the pid file,
setgid, initgroups, setuid. -/
def isPrivEvent : Event → Bool
  | Event.chownFile _ _ _ => true
  | Event.setgid _ => true
  | Event.initgroups _ _ => true
  | Event.setuid _ => true
  | _ => false

/-- The subtrace of privilege drop syscalls, in order. -/
def privEvents (t : List Event) : List Event := t.filter isPrivEvent

/-- Recogniser for the descriptor level events of stream redirection. -/
def isIoEvent : Event → Bool
  | Event.openDevNull => true
  | Event.closeFd _ => true
  | Event.dup2 _ _ => true
  | _ => false

/-- Transposition of the two dup2 operands, the shape difference between the
two redirection implementations. -/
def swapDup : Event → Event
  | Event.dup2 a b => Event.dup2 b a
  | e => e

/-- Restatement of the specified redirection contract, written as a fold over
the standard descriptors in their fixed order: for each descriptor close it,
then duplicate the chosen source descriptor onto it, aborting the whole loop
at the first failing close or duplicate without touching later descriptors. -/
def redirectSpecLoop (env : Env) : List (Nat × Stdio) →
    List Event × Option DaemonError
  | [] => ([], none)
  | (fd, s) :: rest =>
      if env.closeOk fd = false then
        ([Event.closeFd fd], some DaemonError.CloseFp)
      else if env.dup2Ok (s.srcFd env) fd = false then
        ([Event.closeFd fd, Event.dup2 (s.srcFd env) fd],
          some DaemonError.RedirectStream)
      else
        ((Event.closeFd fd :: Event.dup2 (s.srcFd env) fd ::
            (redirectSpecLoop env rest).1),
          (redirectSpecLoop env rest).2)

/-- Restatement of the specified redirection contract at the top level: one
shared null descriptor is opened first, then the three standard descriptors
are processed in the fixed order stdin, stdout, stderr. -/
def redirectSpec (env : Env) (sin sout serr : Stdio) :
    List Event × Option DaemonError :=
  if env.openDevNullOk = false then
    ([Event.openDevNull], some DaemonError.OpenDevNull)
  else
    ((Event.openDevNull ::
        (redirectSpecLoop env [(0, sin), (1, sout), (2, serr)]).1),
      (redirectSpecLoop env [(0, sin), (1, sout), (2, serr)]).2)

theorem runSteps_cons_err {r : List Event × Option DaemonError} {rest} {e}
    (h : r.2 = some e) : runSteps (r :: rest) = (r.1, some e) := by
  obtain ⟨t, res⟩ := r
  simp only at h
  subst h
  rfl

theorem runSteps_cons_ok {r : List Event × Option DaemonError} {rest}
    (h : r.2 = none) :
    runSteps (r :: rest) = (r.1 ++ (runSteps rest).1, (runSteps rest).2) := by
  obtain ⟨t, res⟩ := r
  simp only at h
  subst h
  rfl

theorem runSteps_none_iff (l : List (List Event × Option DaemonError)) :
    (runSteps l).2 = none ↔ ∀ r ∈ l, r.2 = none := by
  induction l with
  | nil => simp [runSteps]
  | cons r rest ih =>
      cases hr : r.2 with
      | some e =>
          rw [runSteps_cons_err hr]
          constructor
          · intro h; cases h
          · intro h
            have hrr := h r (List.mem_cons_self r rest)
            rw [hrr] at hr; cases hr
      | none =>
          rw [runSteps_cons_ok hr]
          constructor
          · intro h x hx
            rcases List.mem_cons.mp hx with hx | hx
            · rw [hx]; exact hr
            · exact ((ih).mp h) x hx
          · intro h
            exact (ih).mpr (fun x hx => h x (List.mem_cons_of_mem _ hx))

theorem runSteps_error_mem {l : List (List Event × Option DaemonError)}
    {e : DaemonError} (h : (runSteps l).2 = some e) :
    ∃ r ∈ l, r.2 = some e := by
  induction l with
  | nil => cases h
  | cons r rest ih =>
      cases hr : r.2 with
      | some e2 =>
          rw [runSteps_cons_err hr] at h
          exact ⟨r, List.mem_cons_self r rest, by rw [hr]; exact h⟩
      | none =>
          rw [runSteps_cons_ok hr] at h
          rcases ih h with ⟨x, hx, hx2⟩
          exact ⟨x, List.mem_cons_of_mem _ hx, hx2⟩

theorem mem_runSteps_fst {l : List (List Event × Option DaemonError)}
    {e : Event} (h : e ∈ (runSteps l).1) : ∃ r ∈ l, e ∈ r.1 := by
  induction l with
  | nil => cases h
  | cons r rest ih =>
      cases hr : r.2 with
      | some e2 =>
          rw [runSteps_cons_err hr] at h
          exact ⟨r, List.mem_cons_self r rest, h⟩
      | none =>
          rw [runSteps_cons_ok hr] at h
          rcases List.mem_append.mp h with h | h
          · exact ⟨r, List.mem_cons_self r rest, h⟩
          · rcases ih h with ⟨x, hx, hx2⟩
            exact ⟨x, List.mem_cons_of_mem _ hx, hx2⟩

theorem mem_procStream {env : Env} {fd : Nat} {s : Stdio} {e : Event}
    (h : e ∈ (procStream env fd s).1) : isIoEvent e = true := by
  unfold procStream at h
  split at h
  · simp at h; rw [h]; rfl
  · split at h <;> (simp at h; rcases h with h | h <;> (rw [h]; rfl))

theorem mem_redirect {env : Env} {a b c : Stdio} {e : Event}
    (h : e ∈ (redirect_stdio env a b c).1) : isIoEvent e = true := by
  unfold redirect_stdio at h
  split at h
  · simp at h; rw [h]; rfl
  · split at h
    · rename_i t0 e0 h0
      rcases List.mem_cons.mp h with h | h
      · rw [h]; rfl
      · exact mem_procStream (by rw [h0]; exact h)
    · rename_i t0 h0
      split at h
      · rename_i t1 e1 h1
        rcases List.mem_cons.mp h with h | h
        · rw [h]; rfl
        · rcases List.mem_append.mp h with h | h
          · exact mem_procStream (by rw [h0]; exact h)
          · exact mem_procStream (by rw [h1]; exact h)
      · rename_i t1 h1
        split at h
        rename_i t2 r2 h2
        rcases List.mem_cons.mp h with h | h
        · rw [h]; rfl
        · rcases List.mem_append.mp h with h | h
          · rcases List.mem_append.mp h with h | h
            · exact mem_procStream (by rw [h0]; exact h)
            · exact mem_procStream (by rw [h1]; exact h)
          · exact mem_procStream (by rw [h2]; exact h)

theorem mem_nameStep {d : Daemon} {env : Env} {e : Event}
    (h : e ∈ (nameStep d env).1) : ∃ n, e = Event.setProcName n := by
  unfold nameStep at h
  split at h
  · cases h
  · split at h
    · cases h
    · simp at h; exact ⟨_, h⟩

theorem mem_umaskStep {d : Daemon} {e : Event}
    (h : e ∈ (umaskStep d).1) : ∃ m, e = Event.umaskSet m := by
  unfold umaskStep at h
  split at h
  · cases h
  · simp at h; exact ⟨_, h⟩

theorem mem_pidStep {d : Daemon} {env : Env} {e : Event}
    (h : e ∈ (pidStep d env).1) :
    (∃ p, e = Event.createPidFile p) ∨ ∃ p c, e = Event.writePidContents p c := by
  unfold pidStep at h
  split at h
  · cases h
  · split at h
    · simp at h
      rcases h with h | h
      · exact Or.inl ⟨_, h⟩
      · exact Or.inr ⟨_, _, h⟩
    · simp at h; exact Or.inl ⟨_, h⟩

theorem mem_chownStep {d : Daemon} {env : Env} {u : User} {g : Group}
    {e : Event} (h : e ∈ (chownStep d env u g).1) :
    ∃ p, e = Event.chownFile p u.id g.id := by
  unfold chownStep at h
  split at h
  · split at h
    · simp at h; exact ⟨_, h⟩
    · cases h
  · cases h

theorem mem_privStep {d : Daemon} {env : Env} {e : Event}
    (h : e ∈ (privStep d env).1) : isPrivEvent e = true := by
  unfold privStep at h
  split at h
  · split at h
    · cases h
    · rcases mem_runSteps_fst h with ⟨r, hr, he⟩
      simp only [List.mem_cons, List.not_mem_nil, or_false] at hr
      rcases hr with hr | hr | hr | hr
      · rw [hr] at he
        rcases mem_chownStep he with ⟨p, hp⟩
        rw [hp]; rfl
      · rw [hr] at he
        unfold setgidStep at he
        simp at he; rw [he]; rfl
      · rw [hr] at he
        unfold initgroupsStep at he
        split at he
        · cases he
        · simp at he; rw [he]; rfl
      · rw [hr] at he
        unfold setuidStep at he
        simp at he; rw [he]; rfl
  · cases h

theorem isChdir_of_io {e : Event} (h : isIoEvent e = true) :
    isChdirEvent e = false := by
  cases e <;> first | rfl | cases h

theorem isChdir_of_priv {e : Event} (h : isPrivEvent e = true) :
    isChdirEvent e = false := by
  cases e <;> first | rfl | cases h

theorem isPriv_of_io {e : Event} (h : isIoEvent e = true) :
    isPrivEvent e = false := by
  cases e <;> first | rfl | cases h

theorem childSequence_none_iff (d : Daemon) (env : Env) :
    (childSequence d env).2 = none ↔
      ((nameStep d env).2 = none ∧ (umaskStep d).2 = none ∧
        (setsidStep env).2 = none ∧ (chdirStep d env).2 = none ∧
        (pidStep d env).2 = none ∧ (privStep d env).2 = none) := by
  unfold childSequence
  rw [runSteps_none_iff]
  simp only [List.mem_cons, List.not_mem_nil, or_false, forall_eq_or_imp,
    forall_eq]
  simp only [initHookStep]
  tauto

theorem childSequence_ok_fst {d : Daemon} {env : Env}
    (h : (childSequence d env).2 = none) :
    (childSequence d env).1 =
      (nameStep d env).1 ++ (umaskStep d).1 ++ (setsidStep env).1 ++
      (chdirStep d env).1 ++ (pidStep d env).1 ++ (privStep d env).1 ++
      (chdirStep d env).1 ++ (initHookStep d).1 := by
  obtain ⟨h1, h2, h3, h4, h5, h6⟩ := (childSequence_none_iff d env).mp h
  unfold childSequence
  rw [runSteps_cons_ok h1, runSteps_cons_ok h2, runSteps_cons_ok h3,
    runSteps_cons_ok h4, runSteps_cons_ok h5, runSteps_cons_ok h6,
    runSteps_cons_ok h4,
    runSteps_cons_ok (show (initHookStep d).2 = none from rfl)]
  simp [runSteps, List.append_assoc]

theorem start_failed_eq {d : Daemon} {env : Env}
    (hf : env.forkResult = ForkOutcome.failed) :
    Daemon.start d env =
      (preTrace d env ++ [Event.fork],
        Outcome.completed (Except.error DaemonError.Fork)) := by
  unfold Daemon.start
  rw [hf]

theorem start_parent_eq {d : Daemon} {env : Env} {cpid : Nat}
    (hf : env.forkResult = ForkOutcome.parent cpid) :
    Daemon.start d env =
      (if d.after_fork_parent_hook then
        (preTrace d env ++
          [Event.fork, Event.afterForkParentHook env.parentPid cpid],
          Outcome.parentHookDiverged)
      else
        (preTrace d env ++ [Event.fork, Event.exitProcess 0],
          Outcome.exited 0)) := by
  unfold Daemon.start
  rw [hf]

theorem start_child_redirect_err {d : Daemon} {env : Env} {rt : List Event}
    {e : DaemonError}
    (hf : env.forkResult = ForkOutcome.child)
    (hre : redirect_stdio env d.stdin d.stdout d.stderr = (rt, some e)) :
    Daemon.start d env =
      (preTrace d env ++ Event.fork :: rt,
        Outcome.completed (Except.error e)) := by
  unfold Daemon.start
  rw [hf, hre]

theorem start_child_invalid {d : Daemon} {env : Env}
    (hf : env.forkResult = ForkOutcome.child)
    (hre : (redirect_stdio env d.stdin d.stdout d.stderr).2 = none)
    (hv : (d.chown_pid_file && (d.user.isNone || d.group.isNone)) = true ∨
      ((d.user.isSome || d.group.isSome) &&
        (d.user.isNone || d.group.isNone)) = true) :
    Daemon.start d env =
      (preTrace d env ++
          Event.fork :: (redirect_stdio env d.stdin d.stdout d.stderr).1 ++
          childHookTrace d env,
        Outcome.completed (Except.error DaemonError.InvalidUserGroupPair)) := by
  unfold Daemon.start
  rw [hf]
  rcases hrp : redirect_stdio env d.stdin d.stdout d.stderr with ⟨rt, re⟩
  rw [hrp] at hre
  replace hre : re = none := hre
  subst hre
  simp only
  cases hc1 : d.chown_pid_file && (d.user.isNone || d.group.isNone) with
  | true => simp
  | false =>
      rcases hv with hv | hv
      · rw [hv] at hc1; simp at hc1
      · rw [hv]; simp

theorem start_child_run {d : Daemon} {env : Env}
    (hf : env.forkResult = ForkOutcome.child)
    (hre : (redirect_stdio env d.stdin d.stdout d.stderr).2 = none)
    (hv1 : (d.chown_pid_file && (d.user.isNone || d.group.isNone)) = false)
    (hv2 : ((d.user.isSome || d.group.isSome) &&
      (d.user.isNone || d.group.isNone)) = false) :
    Daemon.start d env =
      (preTrace d env ++
          Event.fork :: (redirect_stdio env d.stdin d.stdout d.stderr).1 ++
          childHookTrace d env ++ (childSequence d env).1,
        Outcome.completed
          (match (childSequence d env).2 with
            | some e => Except.error e
            | none => Except.ok ())) := by
  unfold Daemon.start
  rw [hf]
  rcases hrp : redirect_stdio env d.stdin d.stdout d.stderr with ⟨rt, re⟩
  rw [hrp] at hre
  replace hre : re = none := hre
  subst hre
  simp only
  rw [hv1, hv2]
  simp only [Bool.false_eq_true, if_false]
  rcases hcp : childSequence d env with ⟨ct, cr⟩
  cases cr <;> simp

theorem start_ok_split {d : Daemon} {env : Env}
    (h : (Daemon.start d env).2 = Outcome.completed (Except.ok ())) :
    env.forkResult = ForkOutcome.child ∧
    (redirect_stdio env d.stdin d.stdout d.stderr).2 = none ∧
    (childSequence d env).2 = none ∧
    (Daemon.start d env).1 =
      preTrace d env ++
        Event.fork :: (redirect_stdio env d.stdin d.stdout d.stderr).1 ++
        childHookTrace d env ++ (childSequence d env).1 := by
  cases hf : env.forkResult with
  | failed => rw [start_failed_eq hf] at h; simp at h
  | parent cpid =>
      rw [start_parent_eq hf] at h
      cases hph : d.after_fork_parent_hook <;> rw [hph] at h <;> simp at h
  | child =>
      rcases hrp : redirect_stdio env d.stdin d.stdout d.stderr with ⟨rt, re⟩
      cases re with
      | some e => rw [start_child_redirect_err hf hrp] at h; simp at h
      | none =>
          have hre : (redirect_stdio env d.stdin d.stdout d.stderr).2 = none := by
            rw [hrp]
          cases hv1 : d.chown_pid_file && (d.user.isNone || d.group.isNone) with
          | true =>
              rw [start_child_invalid hf hre (Or.inl hv1)] at h
              simp at h
          | false =>
              cases hv2 : (d.user.isSome || d.group.isSome) &&
                  (d.user.isNone || d.group.isNone) with
              | true =>
                  rw [start_child_invalid hf hre (Or.inr hv2)] at h
                  simp at h
              | false =>
                  rw [start_child_run hf hre hv1 hv2] at h
                  replace h :
                      (match (childSequence d env).2 with
                        | some e => Except.error e
                        | none => Except.ok ()) = Except.ok () := by
                    have := h
                    simp only at this
                    exact Outcome.completed.inj this
                  cases hcr : (childSequence d env).2 with
                  | some e => rw [hcr] at h; simp at h
                  | none =>
                      refine ⟨rfl, rfl, rfl, ?_⟩
                      rw [start_child_run hf hre hv1 hv2, hrp]

theorem chdirCount_eq_zero {t : List Event}
    (h : ∀ e ∈ t, isChdirEvent e = false) : chdirCount t = 0 :=
  List.countP_eq_zero.mpr (fun e he => by simp [h e he])

theorem forkCount_eq_zero {t : List Event}
    (h : ∀ e ∈ t, e ≠ Event.fork) : forkCount t = 0 :=
  List.count_eq_zero.mpr (fun hm => h Event.fork hm rfl)

theorem privEvents_nil {t : List Event}
    (h : ∀ e ∈ t, isPrivEvent e = false) : privEvents t = [] :=
  List.filter_eq_nil_iff.mpr (fun e he => by simp [h e he])

theorem privEvents_self {t : List Event}
    (h : ∀ e ∈ t, isPrivEvent e = true) : privEvents t = t :=
  List.filter_eq_self.mpr h

theorem mem_preTrace {d : Daemon} {env : Env} {e : Event}
    (h : e ∈ preTrace d env) : e = Event.beforeForkHook env.parentPid := by
  unfold preTrace at h
  split at h
  · simp at h; exact h
  · cases h

theorem mem_childHookTrace {d : Daemon} {env : Env} {e : Event}
    (h : e ∈ childHookTrace d env) :
    e = Event.afterForkChildHook env.parentPid env.childPid := by
  unfold childHookTrace at h
  split at h
  · simp at h; exact h
  · cases h

theorem chownStep_fst (d : Daemon) (env : Env) (u : User) (g : Group) :
    (chownStep d env u g).1 =
      match d.pid_file with
      | some p => if d.chown_pid_file then [Event.chownFile p u.id g.id] else []
      | none => [] := by
  unfold chownStep
  cases d.pid_file with
  | none => rfl
  | some p => cases d.chown_pid_file <;> rfl

theorem initgroupsStep_ok_fst {env : Env} {uname : String} {g : Group}
    (h : (initgroupsStep env uname g).2 = none) :
    (initgroupsStep env uname g).1 = [Event.initgroups uname g.id] := by
  unfold initgroupsStep at h ⊢
  cases hn : hasNul uname with
  | true => rw [hn] at h; simp at h
  | false => simp

theorem privStep_ok_fst {d : Daemon} {env : Env} {u : User} {g : Group}
    (hu : d.user = some u) (hg : d.group = some g)
    (h : (privStep d env).2 = none) :
    ∃ uname, env.lookupNameByUid u.id = some uname ∧
      (privStep d env).1 =
        (chownStep d env u g).1 ++
          [Event.setgid g.id, Event.initgroups uname g.id,
            Event.setuid u.id] := by
  simp only [privStep, hu, hg] at h ⊢
  cases hl : env.lookupNameByUid u.id with
  | none => rw [hl] at h; simp at h
  | some uname =>
      rw [hl] at h
      refine ⟨uname, rfl, ?_⟩
      have h2 : (runSteps [chownStep d env u g, setgidStep env g,
          initgroupsStep env uname g, setuidStep env u]).2 = none := h
      have hall := (runSteps_none_iff _).mp h2
      have hcs : (chownStep d env u g).2 = none := hall _ (by simp)
      have hgs : (setgidStep env g).2 = none := hall _ (by simp)
      have his : (initgroupsStep env uname g).2 = none := hall _ (by simp)
      have hus : (setuidStep env u).2 = none := hall _ (by simp)
      show (runSteps [chownStep d env u g, setgidStep env g,
          initgroupsStep env uname g, setuidStep env u]).1 = _
      rw [runSteps_cons_ok hcs, runSteps_cons_ok hgs, runSteps_cons_ok his,
        runSteps_cons_ok hus]
      rw [initgroupsStep_ok_fst his]
      simp [setgidStep, setuidStep, runSteps]

/-- A fully cooperative oracle: the fork lands in the child branch and every
syscall succeeds; uid lookups resolve to the name daemon. -/
def envChildOk : Env :=
  { parentPid := 100
    forkResult := ForkOutcome.child
    childPid := 1234
    openDevNullOk := true
    devnullFd := 3
    closeOk := fun _ => true
    dup2Ok := fun _ _ => true
    setProcNameOk := true
    setsidOk := true
    chdirOk := true
    createPidOk := true
    writePidOk := true
    chownOk := true
    lookupNameByUid := fun _ => some "daemon"
    setgidOk := true
    initgroupsOk := true
    setuidOk := true }

/-- The cooperative oracle, but the fork returns in the parent branch with
child pid 1234. -/
def envParent : Env :=
  { envChildOk with forkResult := ForkOutcome.parent 1234 }

/-- A configuration with a user but no group: exactly one side of the
identity pair. -/
def userOnlyDaemon : Daemon :=
  { Daemon.new with user := some { id := 10, name := "svc" } }

/-- A configuration asking to chown the pid file without any identity. -/
def chownNoIdDaemon : Daemon :=
  { Daemon.new with pid_file := some "/run/d.pid", chown_pid_file := true }

/-- A full configuration: user, group, pid file with chown. -/
def fullDaemon : Daemon :=
  { Daemon.new with
    user := some { id := 10, name := "svc" }
    group := some { id := 20, name := "grp" }
    pid_file := some "/run/d.pid"
    chown_pid_file := true }

/-- A configuration with a post fork parent hook installed. -/
def parentHookDaemon : Daemon :=
  { Daemon.new with after_fork_parent_hook := true }

theorem ne_fork_of_io {e : Event} (h : isIoEvent e = true) :
    e ≠ Event.fork := by
  cases e <;> simp_all [isIoEvent]

/-- C10: whenever the numeric user id or the numeric group id is 0,
UserInfo::is_some answers false and UserInfo::is_some_none answers true, so
such an identity (in particular root, uid 0 gid 0) is classified exactly like
the default constructed, unset UserInfo. -/
theorem zero_id_classified_absent (uid gid : Nat) (h : uid = 0 ∨ gid = 0) :
    UserInfo.is_some { user := uid, group := gid } = false ∧
    UserInfo.is_some_none { user := uid, group := gid } = true ∧
    UserInfo.is_some { user := uid, group := gid } =
      UserInfo.is_some UserInfo.new ∧
    UserInfo.is_some_none { user := uid, group := gid } =
      UserInfo.is_some_none UserInfo.new := by
  rcases h with h | h <;> subst h <;>
    simp [UserInfo.is_some, UserInfo.is_some_none, UserInfo.new]

/-- C10 witness: the root identity, uid 0 and gid 0, is classified as absent
and is indistinguishable from the default UserInfo by both predicates. -/
theorem zero_id_classified_absent_witness :
    UserInfo.is_some { user := 0, group := 0 } = false ∧
    UserInfo.is_some_none { user := 0, group := 0 } = true ∧
    UserInfo.is_some { user := 0, group := 0 } =
      UserInfo.is_some UserInfo.new ∧
    UserInfo.is_some_none { user := 0, group := 0 } =
      UserInfo.is_some_none UserInfo.new :=
  zero_id_classified_absent 0 0 (Or.inl rfl)

/-- C8: in the parent branch of a successful fork, when no post fork parent
hook is configured the parent exits immediately with status 0; when a hook is
configured it is invoked with the parent and child pids and owns termination
(the engine never regains control); in neither case does the parent branch
continue into the daemonization sequence, as the full trace equality shows. -/
theorem parent_branch_behavior (d : Daemon) (env : Env) (cpid : Nat)
    (hf : env.forkResult = ForkOutcome.parent cpid) :
    Daemon.start d env =
      (if d.after_fork_parent_hook then
        (preTrace d env ++
          [Event.fork, Event.afterForkParentHook env.parentPid cpid],
          Outcome.parentHookDiverged)
      else
        (preTrace d env ++ [Event.fork, Event.exitProcess 0],
          Outcome.exited 0)) :=
  start_parent_eq hf

/-- C8 witness: with the cooperative parent branch oracle, the hookless
configuration exits 0 and the hook configuration hands over to the hook with
the pids 100 and 1234, with no daemonization event in either trace. -/
theorem parent_branch_behavior_witness :
    Daemon.start Daemon.new envParent =
      ([Event.fork, Event.exitProcess 0], Outcome.exited 0) ∧
    Daemon.start parentHookDaemon envParent =
      ([Event.fork, Event.afterForkParentHook 100 1234],
        Outcome.parentHookDiverged) := by
  constructor
  · rw [parent_branch_behavior Daemon.new envParent 1234 rfl]; rfl
  · rw [parent_branch_behavior parentHookDaemon envParent 1234 rfl]; rfl

/-- C1 counterexample: with a user configured and no group, start run in the
child continuation does return InvalidUserGroupPair, but the fork has already
happened: the fork invocation count of the run is 1, not 0, refuting the
claim that the validation is performed before any process is spawned. -/
theorem validation_after_fork_counterexample :
    (Daemon.start userOnlyDaemon envChildOk).2 =
      Outcome.completed (Except.error DaemonError.InvalidUserGroupPair) ∧
    forkCount (Daemon.start userOnlyDaemon envChildOk).1 = 1 ∧
    forkCount (Daemon.start userOnlyDaemon envChildOk).1 ≠ 0 :=
  ⟨rfl, by decide, by decide⟩

/-- C1 amended: for every configuration in which exactly one of user and
group is set, the child continuation of Daemon::start fails with
InvalidUserGroupPair, but the validation runs only after the fork and stream
redirection: exactly one fork invocation is recorded in the trace. -/
theorem invalid_pair_rejected_after_fork (d : Daemon) (env : Env)
    (hone : ((d.user.isSome || d.group.isSome) &&
      (d.user.isNone || d.group.isNone)) = true)
    (hf : env.forkResult = ForkOutcome.child)
    (hre : (redirect_stdio env d.stdin d.stdout d.stderr).2 = none) :
    (Daemon.start d env).2 =
      Outcome.completed (Except.error DaemonError.InvalidUserGroupPair) ∧
    forkCount (Daemon.start d env).1 = 1 := by
  have heq := start_child_invalid hf hre (Or.inr hone)
  rw [heq]
  refine ⟨rfl, ?_⟩
  have h1 : forkCount (preTrace d env) = 0 :=
    forkCount_eq_zero (fun e he => by rw [mem_preTrace he]; simp)
  have h2 : forkCount (redirect_stdio env d.stdin d.stdout d.stderr).1 = 0 :=
    forkCount_eq_zero (fun e he => ne_fork_of_io (mem_redirect he))
  have h3 : forkCount (childHookTrace d env) = 0 :=
    forkCount_eq_zero (fun e he => by rw [mem_childHookTrace he]; simp)
  have h4 : forkCount (preTrace d env ++
      Event.fork :: (redirect_stdio env d.stdin d.stdout d.stderr).1 ++
      childHookTrace d env) = 1 := by
    unfold forkCount at h1 h2 h3 ⊢
    rw [List.count_append, List.count_append, List.count_cons_self]
    omega
  exact h4

/-- C1 amended witness: at the user-only configuration under the cooperative
child oracle, the run errors with InvalidUserGroupPair and its trace records
exactly one fork. -/
theorem invalid_pair_rejected_after_fork_witness :
    (Daemon.start userOnlyDaemon envChildOk).2 =
      Outcome.completed (Except.error DaemonError.InvalidUserGroupPair) ∧
    forkCount (Daemon.start userOnlyDaemon envChildOk).1 = 1 :=
  invalid_pair_rejected_after_fork userOnlyDaemon envChildOk rfl rfl rfl

/-- C4 counterexample: with chown_pid_file set and no identity, start does
fail with InvalidUserGroupPair, but not before performing daemonization
steps: the trace already contains the fork and the stream redirection events,
refuting the claim that the failure precedes any daemonization step. -/
theorem chown_without_identity_counterexample :
    (Daemon.start chownNoIdDaemon envChildOk).2 =
      Outcome.completed (Except.error DaemonError.InvalidUserGroupPair) ∧
    Event.fork ∈ (Daemon.start chownNoIdDaemon envChildOk).1 ∧
    Event.openDevNull ∈ (Daemon.start chownNoIdDaemon envChildOk).1 :=
  ⟨rfl, by decide, by decide⟩

/-- C4 amended: for every configuration with chown_pid_file true and no
identity, the child continuation of start fails with InvalidUserGroupPair
after the fork, the stream redirection and the optional child hook, and
before any further step: the trace is exactly the pre fork hook, the fork,
the redirection events and the child hook, with no umask, setsid, chdir, pid
file or privilege event. -/
theorem chown_without_identity_rejected (d : Daemon) (env : Env)
    (hc : d.chown_pid_file = true) (hu : d.user = none) (_hg : d.group = none)
    (hf : env.forkResult = ForkOutcome.child)
    (hre : (redirect_stdio env d.stdin d.stdout d.stderr).2 = none) :
    Daemon.start d env =
      (preTrace d env ++
          Event.fork :: (redirect_stdio env d.stdin d.stdout d.stderr).1 ++
          childHookTrace d env,
        Outcome.completed (Except.error DaemonError.InvalidUserGroupPair)) :=
  start_child_invalid hf hre (Or.inl (by rw [hc, hu]; rfl))

/-- C4 amended witness: the chown-without-identity configuration under the
cooperative child oracle ends in InvalidUserGroupPair with a trace holding
exactly the fork and redirection events. -/
theorem chown_without_identity_rejected_witness :
    Daemon.start chownNoIdDaemon envChildOk =
      ([Event.fork, Event.openDevNull, Event.closeFd 0, Event.dup2 3 0,
        Event.closeFd 1, Event.dup2 3 1, Event.closeFd 2, Event.dup2 3 2],
        Outcome.completed (Except.error DaemonError.InvalidUserGroupPair)) :=
  chown_without_identity_rejected chownNoIdDaemon envChildOk rfl rfl rfl rfl
    rfl

theorem redirectSpecLoop_cons (env : Env) (fd : Nat) (s : Stdio)
    (rest : List (Nat × Stdio)) :
    redirectSpecLoop env ((fd, s) :: rest) =
      (match procStream env fd s with
        | (t, some e) => (t, some e)
        | (t, none) =>
            (t ++ (redirectSpecLoop env rest).1,
              (redirectSpecLoop env rest).2)) := by
  simp only [redirectSpecLoop, procStream]
  cases hc : env.closeOk fd with
  | false => rfl
  | true =>
      cases s with
      | devnull =>
          simp only [Stdio.srcFd]
          cases hd : env.dup2Ok env.devnullFd fd <;> rfl
      | redirectToFile f =>
          simp only [Stdio.srcFd]
          cases hd : env.dup2Ok f fd <;> rfl

/-- C5: redirect_stdio of src/stdio.rs is exactly the specified contract: one
shared null descriptor opened first, the three standard descriptors processed
in the fixed order stdin, stdout, stderr, each first closed and then the
shared null descriptor or the caller file descriptor duplicated onto it, with
the first failing close or duplicate aborting the whole call (CloseFp for a
close, RedirectStream for a duplicate, OpenDevNull for the initial open) and
no later descriptor touched, and nothing restored. -/
theorem redirect_stdio_matches_spec (env : Env) (sin sout serr : Stdio) :
    redirect_stdio env sin sout serr = redirectSpec env sin sout serr := by
  unfold redirect_stdio redirectSpec
  cases ho : env.openDevNullOk with
  | false => simp
  | true =>
      rw [redirectSpecLoop_cons, redirectSpecLoop_cons, redirectSpecLoop_cons]
      rcases h0 : procStream env 0 sin with ⟨t0, r0⟩
      cases r0 with
      | some e => simp
      | none =>
          rcases h1 : procStream env 1 sout with ⟨t1, r1⟩
          cases r1 with
          | some e => simp
          | none =>
              rcases h2 : procStream env 2 serr with ⟨t2, r2⟩
              cases r2 <;> simp [redirectSpecLoop]

/-- C9 counterexample: under the all-success oracle with null descriptor 3
and all three streams at devnull, the two embedded redirection
implementations attempt different syscall sequences: stdio.rs emits
dup2(null, fd) while process.rs emits dup2(fd, null), so they do not perform
the same close and duplicate operations on the same descriptors as the claim
states. -/
theorem stdio_process_redirect_counterexample :
    (redirect_stdio envChildOk Stdio.devnull Stdio.devnull Stdio.devnull).1 ≠
      (process_redirect_stdio envChildOk Stdio.devnull Stdio.devnull
        Stdio.devnull).1 := by
  decide

theorem procStream_ok {env : Env} {fd : Nat} {s : Stdio}
    (hc : env.closeOk fd = true)
    (hd : env.dup2Ok (s.srcFd env) fd = true) :
    procStream env fd s =
      ([Event.closeFd fd, Event.dup2 (s.srcFd env) fd], none) := by
  unfold procStream
  rw [hc]
  cases s with
  | devnull =>
      simp only [Stdio.srcFd] at hd ⊢
      rw [hd]
      rfl
  | redirectToFile f =>
      simp only [Stdio.srcFd] at hd ⊢
      rw [hd]
      rfl

theorem close_and_dub_fail {env : Env} {fd_old fd_new : Nat}
    (hc : env.closeOk fd_old = true)
    (hd : env.dup2Ok fd_old fd_new = false) :
    close_and_dub env fd_old fd_new =
      ([Event.closeFd fd_old, Event.dup2 fd_old fd_new],
        some PError.errnoLast) := by
  unfold close_and_dub
  rw [hc, hd]
  rfl

/-- A POSIX-faithful oracle for redirection time: closes succeed, a dup2
whose source is the just closed standard descriptor 0 fails (EBADF), and a
dup2 from a still open descriptor above 2 (the freshly opened null device at
3, or a caller file) succeeds. -/
def envPosix : Env :=
  { envChildOk with dup2Ok := fun src _ => decide (2 < src) }

/-- C9 amended: the two implementations are not equivalent. Both close each
standard descriptor first, but process.rs close_and_dub calls dup2 with the
operands transposed, using the just closed standard descriptor as the dup2
source, and reports raw errnos instead of DaemonError values. Consequently,
on any oracle where every close succeeds, dup2 sourced at the just closed
descriptor 0 fails (as POSIX EBADF dictates), the null and caller source
descriptors lie above 2, and dup2 from such still open sources succeeds,
stdio.rs succeeds while process.rs aborts at its very first duplicate: its
whole run is exactly the first three operations of the stdio.rs run with the
duplicate operands transposed. -/
theorem process_redirect_not_equivalent (env : Env) (sin sout serr : Stdio)
    (ho : env.openDevNullOk = true)
    (hcl : ∀ fd, env.closeOk fd = true)
    (hebadf : ∀ dst, env.dup2Ok 0 dst = false)
    (hsrc0 : 2 < sin.srcFd env) (hsrc1 : 2 < sout.srcFd env)
    (hsrc2 : 2 < serr.srcFd env)
    (hgood : ∀ src fd, 2 < src → env.dup2Ok src fd = true) :
    (redirect_stdio env sin sout serr).2 = none ∧
    process_redirect_stdio env sin sout serr =
      ([Event.openDevNull, Event.closeFd 0,
        Event.dup2 0 (sin.srcFd env)], some PError.errnoLast) ∧
    (process_redirect_stdio env sin sout serr).1 =
      ((redirect_stdio env sin sout serr).1.take 3).map swapDup := by
  have hp0 := procStream_ok (s := sin) (hcl 0) (hgood _ 0 hsrc0)
  have hp1 := procStream_ok (s := sout) (hcl 1) (hgood _ 1 hsrc1)
  have hp2 := procStream_ok (s := serr) (hcl 2) (hgood _ 2 hsrc2)
  have hr : redirect_stdio env sin sout serr =
      (Event.openDevNull ::
        ([Event.closeFd 0, Event.dup2 (sin.srcFd env) 0] ++
          [Event.closeFd 1, Event.dup2 (sout.srcFd env) 1] ++
          [Event.closeFd 2, Event.dup2 (serr.srcFd env) 2]), none) := by
    unfold redirect_stdio
    rw [ho, hp0, hp1, hp2]
    rfl
  have hq : process_redirect_stdio env sin sout serr =
      ([Event.openDevNull, Event.closeFd 0,
        Event.dup2 0 (sin.srcFd env)], some PError.errnoLast) := by
    unfold process_redirect_stdio
    rw [ho, close_and_dub_fail (hcl 0) (hebadf (sin.srcFd env))]
    rfl
  refine ⟨by rw [hr], hq, ?_⟩
  rw [hq, hr]
  rfl

/-- C9 amended witness: at the POSIX-faithful oracle with all three streams
at devnull (source descriptor 3), stdio.rs succeeds while process.rs aborts
at its first duplicate dup2(0, 3), the transposition of stdio.rs dup2(3, 0). -/
theorem process_redirect_not_equivalent_witness :
    (redirect_stdio envPosix Stdio.devnull Stdio.devnull Stdio.devnull).2 =
      none ∧
    process_redirect_stdio envPosix Stdio.devnull Stdio.devnull
        Stdio.devnull =
      ([Event.openDevNull, Event.closeFd 0, Event.dup2 0 3],
        some PError.errnoLast) ∧
    (process_redirect_stdio envPosix Stdio.devnull Stdio.devnull
        Stdio.devnull).1 =
      ((redirect_stdio envPosix Stdio.devnull Stdio.devnull
        Stdio.devnull).1.take 3).map swapDup :=
  process_redirect_not_equivalent envPosix Stdio.devnull Stdio.devnull
    Stdio.devnull rfl (fun _ => rfl) (fun _ => rfl) (by decide) (by decide)
    (by decide) (fun _ _ h => decide_eq_true h)

/-- C7: on every successful run of start, the change of working directory to
the configured root is invoked exactly twice, once as the early anchor after
session creation and once as the final re-anchor, and this holds whether or
not an identity is configured (the statement quantifies over every
configuration). -/
theorem chdir_invoked_twice (d : Daemon) (env : Env)
    (h : (Daemon.start d env).2 = Outcome.completed (Except.ok ())) :
    chdirCount (Daemon.start d env).1 = 2 := by
  obtain ⟨hf, hre, hcs, htr⟩ := start_ok_split h
  rw [htr, childSequence_ok_fst hcs]
  have z1 : (preTrace d env).countP isChdirEvent = 0 :=
    chdirCount_eq_zero (fun e he => by rw [mem_preTrace he]; rfl)
  have z2 : (redirect_stdio env d.stdin d.stdout d.stderr).1.countP
      isChdirEvent = 0 :=
    chdirCount_eq_zero (fun e he => isChdir_of_io (mem_redirect he))
  have z3 : (childHookTrace d env).countP isChdirEvent = 0 :=
    chdirCount_eq_zero (fun e he => by rw [mem_childHookTrace he]; rfl)
  have z4 : (nameStep d env).1.countP isChdirEvent = 0 :=
    chdirCount_eq_zero (fun e he => by
      obtain ⟨n, hn⟩ := mem_nameStep he; rw [hn]; rfl)
  have z5 : (umaskStep d).1.countP isChdirEvent = 0 :=
    chdirCount_eq_zero (fun e he => by
      obtain ⟨m, hm⟩ := mem_umaskStep he; rw [hm]; rfl)
  have z6 : (setsidStep env).1.countP isChdirEvent = 0 := rfl
  have z7 : (pidStep d env).1.countP isChdirEvent = 0 :=
    chdirCount_eq_zero (fun e he => by
      rcases mem_pidStep he with ⟨p, hp⟩ | ⟨p, c, hp⟩ <;> rw [hp] <;> rfl)
  have z8 : (privStep d env).1.countP isChdirEvent = 0 :=
    chdirCount_eq_zero (fun e he => isChdir_of_priv (mem_privStep he))
  have z9 : (initHookStep d).1.countP isChdirEvent = 0 := by
    unfold initHookStep
    cases d.after_init_hook <;> rfl
  have c1 : (chdirStep d env).1.countP isChdirEvent = 1 := rfl
  unfold chdirCount
  simp only [List.countP_append, List.countP_cons, isChdirEvent, z1, z2, z3,
    z4, z5, z6, z7, z8, z9, c1]
  decide

/-- C7 witness: both with the full identity configuration and with the bare
default configuration, a successful run under the cooperative oracle records
exactly two working directory changes. -/
theorem chdir_invoked_twice_witness :
    chdirCount (Daemon.start fullDaemon envChildOk).1 = 2 ∧
    chdirCount (Daemon.start Daemon.new envChildOk).1 = 2 :=
  ⟨chdir_invoked_twice fullDaemon envChildOk rfl,
    chdir_invoked_twice Daemon.new envChildOk rfl⟩

/-- C2: when both user and group are configured and start succeeds, the
privilege drop syscalls in the trace are exactly, in order: the chown of the
pid file (present exactly when chown_pid_file is set and a pid file exists)
first, then setgid, then initgroups for the resolved user name, then setuid
strictly last. -/
theorem priv_drop_syscall_order (d : Daemon) (env : Env) (u : User)
    (g : Group) (hu : d.user = some u) (hg : d.group = some g)
    (h : (Daemon.start d env).2 = Outcome.completed (Except.ok ())) :
    ∃ uname, env.lookupNameByUid u.id = some uname ∧
      privEvents (Daemon.start d env).1 =
        (match d.pid_file with
          | some p =>
              if d.chown_pid_file then [Event.chownFile p u.id g.id] else []
          | none => []) ++
        [Event.setgid g.id, Event.initgroups uname g.id,
          Event.setuid u.id] := by
  obtain ⟨hf, hre, hcs, htr⟩ := start_ok_split h
  obtain ⟨hn1, hum, hsid, hcd, hpid, hpriv⟩ :=
    (childSequence_none_iff d env).mp hcs
  obtain ⟨uname, hl, hpfst⟩ := privStep_ok_fst hu hg hpriv
  refine ⟨uname, hl, ?_⟩
  rw [htr, childSequence_ok_fst hcs]
  have z1 : privEvents (preTrace d env) = [] :=
    privEvents_nil (fun e he => by rw [mem_preTrace he]; rfl)
  have z2 : privEvents (redirect_stdio env d.stdin d.stdout d.stderr).1 = [] :=
    privEvents_nil (fun e he => isPriv_of_io (mem_redirect he))
  have z3 : privEvents (childHookTrace d env) = [] :=
    privEvents_nil (fun e he => by rw [mem_childHookTrace he]; rfl)
  have z4 : privEvents (nameStep d env).1 = [] :=
    privEvents_nil (fun e he => by
      obtain ⟨n, hn⟩ := mem_nameStep he; rw [hn]; rfl)
  have z5 : privEvents (umaskStep d).1 = [] :=
    privEvents_nil (fun e he => by
      obtain ⟨m, hm⟩ := mem_umaskStep he; rw [hm]; rfl)
  have z6 : privEvents (setsidStep env).1 = [] := rfl
  have z7 : privEvents (chdirStep d env).1 = [] := rfl
  have z8 : privEvents (pidStep d env).1 = [] :=
    privEvents_nil (fun e he => by
      rcases mem_pidStep he with ⟨p, hp⟩ | ⟨p, c, hp⟩ <;> rw [hp] <;> rfl)
  have z9 : privEvents (initHookStep d).1 = [] := by
    unfold initHookStep
    cases d.after_init_hook <;> rfl
  have zp : privEvents (privStep d env).1 = (privStep d env).1 :=
    privEvents_self (fun e he => mem_privStep he)
  unfold privEvents at z1 z2 z3 z4 z5 z6 z7 z8 z9 zp ⊢
  simp only [List.filter_append, List.filter_cons, isPrivEvent, z1, z2, z3,
    z4, z5, z6, z7, z8, z9, zp]
  rw [hpfst, chownStep_fst]
  simp

/-- C2 witness: the full configuration under the cooperative oracle succeeds
and its privilege subtrace is exactly the chown of the pid file, setgid 20,
initgroups for the resolved name daemon, and setuid 10 last. -/
theorem priv_drop_syscall_order_witness :
    ∃ uname, envChildOk.lookupNameByUid 10 = some uname ∧
      privEvents (Daemon.start fullDaemon envChildOk).1 =
        [Event.chownFile "/run/d.pid" 10 20] ++
        [Event.setgid 20, Event.initgroups uname 20, Event.setuid 10] :=
  priv_drop_syscall_order fullDaemon envChildOk
    { id := 10, name := "svc" } { id := 20, name := "grp" } rfl rfl rfl

theorem setsidStep_ne_umaskErr (env : Env) :
    (setsidStep env).2 ≠ some DaemonError.InvalidUmaskBits := by
  unfold setsidStep
  cases env.setsidOk <;> simp

theorem chdirStep_ne_umaskErr (d : Daemon) (env : Env) :
    (chdirStep d env).2 ≠ some DaemonError.InvalidUmaskBits := by
  unfold chdirStep
  cases env.chdirOk <;> simp

theorem pidStep_ne_umaskErr (d : Daemon) (env : Env) :
    (pidStep d env).2 ≠ some DaemonError.InvalidUmaskBits := by
  unfold pidStep
  cases d.pid_file with
  | none => simp
  | some p => cases env.createPidOk <;> cases env.writePidOk <;> simp

theorem chownStep_ne_umaskErr (d : Daemon) (env : Env) (u : User) (g : Group) :
    (chownStep d env u g).2 ≠ some DaemonError.InvalidUmaskBits := by
  unfold chownStep
  cases d.pid_file with
  | none => simp
  | some p => cases d.chown_pid_file <;> cases env.chownOk <;> simp

theorem setgidStep_ne_umaskErr (env : Env) (g : Group) :
    (setgidStep env g).2 ≠ some DaemonError.InvalidUmaskBits := by
  unfold setgidStep
  cases env.setgidOk <;> simp

theorem initgroupsStep_ne_umaskErr (env : Env) (uname : String) (g : Group) :
    (initgroupsStep env uname g).2 ≠ some DaemonError.InvalidUmaskBits := by
  unfold initgroupsStep
  cases hasNul uname <;> cases env.initgroupsOk <;> simp

theorem setuidStep_ne_umaskErr (env : Env) (u : User) :
    (setuidStep env u).2 ≠ some DaemonError.InvalidUmaskBits := by
  unfold setuidStep
  cases env.setuidOk <;> simp

theorem privStep_ne_umaskErr (d : Daemon) (env : Env) :
    (privStep d env).2 ≠ some DaemonError.InvalidUmaskBits := by
  unfold privStep
  split
  · split
    · simp
    · intro hc
      rcases runSteps_error_mem hc with ⟨r, hmem, hr2⟩
      simp only [List.mem_cons, List.not_mem_nil, or_false] at hmem
      rcases hmem with hm | hm | hm | hm <;> subst hm
      · exact chownStep_ne_umaskErr _ _ _ _ hr2
      · exact setgidStep_ne_umaskErr _ _ hr2
      · exact initgroupsStep_ne_umaskErr _ _ _ hr2
      · exact setuidStep_ne_umaskErr _ _ hr2
  · simp

/-- C3: on the child continuation with redirection, validation and the
process name step all passed, start returns InvalidUmaskBits exactly when the
configured umask value lies outside 0..=0o777; every value within the range
is accepted and applied (the trace records the umask application), modelling
the external from_bits range from the specification. -/
theorem umask_range_validation (d : Daemon) (env : Env)
    (hf : env.forkResult = ForkOutcome.child)
    (hre : (redirect_stdio env d.stdin d.stdout d.stderr).2 = none)
    (hv1 : (d.chown_pid_file && (d.user.isNone || d.group.isNone)) = false)
    (hv2 : ((d.user.isSome || d.group.isSome) &&
      (d.user.isNone || d.group.isNone)) = false)
    (hn : (nameStep d env).2 = none) :
    ((Daemon.start d env).2 =
        Outcome.completed (Except.error DaemonError.InvalidUmaskBits) ↔
      0o777 < d.umask) ∧
    (d.umask ≤ 0o777 →
      Event.umaskSet d.umask ∈ (Daemon.start d env).1) := by
  have heq := start_child_run hf hre hv1 hv2
  constructor
  · constructor
    · intro hres
      by_contra hgt
      push_neg at hgt
      rw [heq] at hres
      replace hres := Outcome.completed.inj hres
      cases hcr : (childSequence d env).2 with
      | none => rw [hcr] at hres; simp at hres
      | some e =>
          rw [hcr] at hres
          replace hres : e = DaemonError.InvalidUmaskBits :=
            Except.error.inj hres
          subst hres
          have hcr2 : (runSteps [nameStep d env, umaskStep d, setsidStep env,
              chdirStep d env, pidStep d env, privStep d env, chdirStep d env,
              initHookStep d]).2 = some DaemonError.InvalidUmaskBits := hcr
          rcases runSteps_error_mem hcr2 with ⟨r, hmem, hr2⟩
          simp only [List.mem_cons, List.not_mem_nil, or_false] at hmem
          rcases hmem with hm | hm | hm | hm | hm | hm | hm | hm <;> subst hm
          · rw [hn] at hr2; cases hr2
          · have humok : (umaskStep d).2 = none := by
              unfold umaskStep Mode.from_bits
              rw [if_pos hgt]
            rw [humok] at hr2; cases hr2
          · exact setsidStep_ne_umaskErr env hr2
          · exact chdirStep_ne_umaskErr d env hr2
          · exact pidStep_ne_umaskErr d env hr2
          · exact privStep_ne_umaskErr d env hr2
          · exact chdirStep_ne_umaskErr d env hr2
          · exact Option.noConfusion hr2
    · intro hlt
      have humask : (umaskStep d).2 = some DaemonError.InvalidUmaskBits := by
        unfold umaskStep Mode.from_bits
        rw [if_neg (by omega)]
      have hcs2 : (childSequence d env).2 =
          some DaemonError.InvalidUmaskBits := by
        show (runSteps [nameStep d env, umaskStep d, setsidStep env,
          chdirStep d env, pidStep d env, privStep d env, chdirStep d env,
          initHookStep d]).2 = _
        rw [runSteps_cons_ok hn, runSteps_cons_err humask]
      rw [heq]
      show Outcome.completed
        (match (childSequence d env).2 with
          | some e => Except.error e
          | none => Except.ok ()) = _
      rw [hcs2]
  · intro hle
    have humok : (umaskStep d).2 = none := by
      unfold umaskStep Mode.from_bits
      rw [if_pos hle]
    have hmem : Event.umaskSet d.umask ∈ (childSequence d env).1 := by
      show _ ∈ (runSteps [nameStep d env, umaskStep d, setsidStep env,
        chdirStep d env, pidStep d env, privStep d env, chdirStep d env,
        initHookStep d]).1
      rw [runSteps_cons_ok hn]
      apply List.mem_append_right
      rw [runSteps_cons_ok humok]
      apply List.mem_append_left
      unfold umaskStep Mode.from_bits
      rw [if_pos hle]
      simp
    rw [heq]
    exact List.mem_append_right _ hmem

/-- C3 witness: the default configuration (umask 0o027) under the
cooperative child oracle: InvalidUmaskBits is not returned (0o027 is in
range) and the trace records the application of umask 0o027. -/
theorem umask_range_validation_witness :
    ((Daemon.start Daemon.new envChildOk).2 =
        Outcome.completed (Except.error DaemonError.InvalidUmaskBits) ↔
      0o777 < Daemon.new.umask) ∧
    (Daemon.new.umask ≤ 0o777 →
      Event.umaskSet Daemon.new.umask ∈
        (Daemon.start Daemon.new envChildOk).1) :=
  umask_range_validation Daemon.new envChildOk rfl rfl rfl rfl rfl

/-- The cooperative child oracle, except that writing the pid file fails. -/
def envNoWrite : Env := { envChildOk with writePidOk := false }

/-- C6: when a pid file is configured and the run reaches the pid recording
step (redirection, validation, name, umask, setsid and the first chdir all
passed), then if creating and writing succeed the trace records the file
being written with exactly the decimal representation of the post fork
process id (no newline, no padding), and if either the create or the write
fails the run returns WritePid. -/
theorem pid_file_written (d : Daemon) (env : Env) (p : String)
    (hp : d.pid_file = some p)
    (hf : env.forkResult = ForkOutcome.child)
    (hre : (redirect_stdio env d.stdin d.stdout d.stderr).2 = none)
    (hv1 : (d.chown_pid_file && (d.user.isNone || d.group.isNone)) = false)
    (hv2 : ((d.user.isSome || d.group.isSome) &&
      (d.user.isNone || d.group.isNone)) = false)
    (hn : (nameStep d env).2 = none) (hum : (umaskStep d).2 = none)
    (hsid : env.setsidOk = true) (hcd : env.chdirOk = true) :
    ((env.createPidOk = true ∧ env.writePidOk = true) →
      Event.writePidContents p (Nat.repr env.childPid) ∈
        (Daemon.start d env).1) ∧
    ((env.createPidOk = false ∨ env.writePidOk = false) →
      (Daemon.start d env).2 =
        Outcome.completed (Except.error DaemonError.WritePid)) := by
  have heq := start_child_run hf hre hv1 hv2
  have hsid2 : (setsidStep env).2 = none := by
    unfold setsidStep
    rw [hsid]
    rfl
  have hcd2 : (chdirStep d env).2 = none := by
    unfold chdirStep
    rw [hcd]
    rfl
  constructor
  · rintro ⟨hcr, hwr⟩
    have hmem : Event.writePidContents p (Nat.repr env.childPid) ∈
        (childSequence d env).1 := by
      show _ ∈ (runSteps [nameStep d env, umaskStep d, setsidStep env,
        chdirStep d env, pidStep d env, privStep d env, chdirStep d env,
        initHookStep d]).1
      rw [runSteps_cons_ok hn]
      apply List.mem_append_right
      rw [runSteps_cons_ok hum]
      apply List.mem_append_right
      rw [runSteps_cons_ok hsid2]
      apply List.mem_append_right
      rw [runSteps_cons_ok hcd2]
      apply List.mem_append_right
      have hpok : (pidStep d env).2 = none := by
        unfold pidStep
        rw [hp, hcr, hwr]
        rfl
      rw [runSteps_cons_ok hpok]
      apply List.mem_append_left
      unfold pidStep
      rw [hp, hcr]
      simp
    rw [heq]
    exact List.mem_append_right _ hmem
  · intro hor
    have hpe : (pidStep d env).2 = some DaemonError.WritePid := by
      unfold pidStep
      rw [hp]
      rcases hor with hcr | hwr
      · rw [hcr]; rfl
      · cases hcr2 : env.createPidOk with
        | false => rfl
        | true => rw [hwr]; rfl
    have hcs2 : (childSequence d env).2 = some DaemonError.WritePid := by
      show (runSteps [nameStep d env, umaskStep d, setsidStep env,
        chdirStep d env, pidStep d env, privStep d env, chdirStep d env,
        initHookStep d]).2 = _
      rw [runSteps_cons_ok hn, runSteps_cons_ok hum,
        runSteps_cons_ok hsid2, runSteps_cons_ok hcd2,
        runSteps_cons_err hpe]
    rw [heq]
    show Outcome.completed
      (match (childSequence d env).2 with
        | some e => Except.error e
        | none => Except.ok ()) = _
    rw [hcs2]

/-- C6 witness: with child pid 1234 the pid file trace event carries exactly
the contents 1234, and when the write fails the run returns WritePid. -/
theorem pid_file_written_witness :
    Event.writePidContents "/run/d.pid" "1234" ∈
      (Daemon.start fullDaemon envChildOk).1 ∧
    (Daemon.start fullDaemon envNoWrite).2 =
      Outcome.completed (Except.error DaemonError.WritePid) :=
  ⟨(pid_file_written fullDaemon envChildOk "/run/d.pid" rfl rfl rfl rfl rfl
      rfl rfl rfl rfl).1 ⟨rfl, rfl⟩,
    (pid_file_written fullDaemon envNoWrite "/run/d.pid" rfl rfl rfl rfl rfl
      rfl rfl rfl rfl).2 (Or.inr rfl)⟩

end DaemonizeMe
